import Mathlib

/-!
Verification of the webServer repository (src/webServer.cpp, src/socket.cpp,
src/socket.h) against its natural-language specification.

The C++ sources are shallowly embedded: byte streams are lists of `Char`
(one `Char` per byte), the filesystem and the OS socket layer are explicit
oracles, and every fallible C++ function returning `std::optional` becomes a
Lean function returning `Option`.  Filesystem and OS interactions are
tracked as explicit traces so that "without touching the filesystem / the
OS" is a provable statement.
-/

/-! ## Embedding of src/webServer.cpp -/

/-- The carriage-return byte. -/
def CR : Char := Char.ofNat 13

/-- The line-feed byte. -/
def LF : Char := Char.ofNat 10

/-- The two-byte CRLF line terminator. -/
def crlf : List Char := [CR, LF]

/-- The CRLFCRLF header-block terminator (the literal "\r\n\r\n" passed to
`recv_until` in `read_header`). -/
def crlfcrlf : List Char := [CR, LF, CR, LF]

/-- `enum class HttpRequestType` from webServer.cpp. -/
inductive HttpRequestType
  | GET
  | HEAD
  | POST
  | INVALID
deriving DecidableEq

/-- `struct HttpRequest` from webServer.cpp.  The `headers` map is never
populated nor read by the code, so it is omitted from the embedding. -/
structure HttpRequest where
  method : HttpRequestType
  path : List Char
  http_version : List Char
deriving DecidableEq

/-- `get_content_type` from webServer.cpp: suffix dispatch on the filename. -/
def get_content_type (filename : List Char) : List Char :=
  if List.isSuffixOf (".html".toList) filename then "text/html".toList
  else if List.isSuffixOf (".jpg".toList) filename
      || List.isSuffixOf (".jpeg".toList) filename then "image/jpeg".toList
  else "application/octet-stream".toList

/-- The character class `[0-9]` of the path regex. -/
def isAsciiDigit (c : Char) : Bool := decide ('0' ≤ c) && decide (c ≤ '9')

/-- Body of the `file[0-9]\.html` alternative of the regex in
`is_valid_filename`. -/
def matchFileHtml : List Char → Bool
  | ['f', 'i', 'l', 'e', d, '.', 'h', 't', 'm', 'l'] => isAsciiDigit d
  | _ => false

/-- Body of the `image[0-9]\.jpg` alternative of the regex in
`is_valid_filename`. -/
def matchImageJpg : List Char → Bool
  | ['i', 'm', 'a', 'g', 'e', d, '.', 'j', 'p', 'g'] => isAsciiDigit d
  | _ => false

/-- `is_valid_filename` from webServer.cpp: full match of the anchored regex
`^/(file[0-9]\.html|image[0-9]\.jpg)$`. -/
def is_valid_filename : List Char → Bool
  | '/' :: rest => matchFileHtml rest || matchImageJpg rest
  | _ => false

/-- The filesystem oracle: maps a path (as the byte string handed to the OS)
to the readable content of that file, or `none` when the file does not exist
or cannot be opened/read. -/
def Fs : Type := List Char → Option (List Char)

/-- `read_file` from webServer.cpp.  Its observable behaviour is: return the
file's bytes when the file at `fp` exists and can be opened and read in
full, and `std::nullopt` otherwise (the exists/file_size/open/read failure
branches all collapse into the `none` case of the oracle). -/
def read_file (fs : Fs) (fp : List Char) : Option (List Char) := fs fp

/-- `parse_method` from webServer.cpp. -/
def parse_method (m : List Char) : HttpRequestType :=
  if m = "GET".toList then HttpRequestType.GET
  else if m = "HEAD".toList then HttpRequestType.HEAD
  else if m = "POST".toList then HttpRequestType.POST
  else HttpRequestType.INVALID

/-- Whitespace as classified by `std::istringstream` extraction
(`isspace` in the default locale): space, \t, \n, \v, \f, \r. -/
def isStreamWS (c : Char) : Bool :=
  c == ' ' || c == '\t' || c == '\n' || c == Char.ofNat 11 || c == Char.ofNat 12 || c == '\r'

/-- `std::istringstream` whitespace tokenization: maximal runs of
non-whitespace characters, in order.  `sw >> a >> b >> c` succeeds exactly
when there are at least three such tokens, binding the first three. -/
def tokenize (s : List Char) : List (List Char) :=
  (s.splitOnP isStreamWS).filter (fun t => !t.isEmpty)

/-- `request_data->find("\r\n")` followed by `substr(0, first_newline)`:
returns the characters strictly before the first CRLF, or `none` when no
CRLF occurs. -/
def splitFirstCRLF : List Char → Option (List Char)
  | [] => none
  | [_] => none
  | c1 :: c2 :: rest =>
    if c1 = CR then
      if c2 = LF then some []
      else (splitFirstCRLF (c2 :: rest)).map (fun l => c1 :: l)
    else (splitFirstCRLF (c2 :: rest)).map (fun l => c1 :: l)

/-- `read_header` from webServer.cpp, applied to the result of the
`recv_until("\r\n\r\n")` call it performs: `none` when the receive failed,
when no CRLF is present, or when the first line does not contain at least
three whitespace-separated tokens; otherwise the parsed request (the first
three tokens; any further tokens on the request line are ignored by
`istringstream` extraction). -/
def read_header (request_data : Option (List Char)) : Option HttpRequest :=
  match request_data with
  | none => none
  | some data =>
    match splitFirstCRLF data with
    | none => none
    | some request_line =>
      match tokenize request_line with
      | method :: path :: version :: _ =>
        some ⟨parse_method method, path, version⟩
      | _ => none

/-- `send_line` from webServer.cpp: the line followed by CRLF. -/
def send_line (line : List Char) : List Char := line ++ crlf

/-- `send404` from webServer.cpp, as the exact bytes written to the socket.
Note the third line is the literal `"Content-Type text/html"` of the
source, which has no colon. -/
def send404 : List Char :=
  send_line ("HTTP/1.0 404 Not Found".toList) ++
  send_line ("Content-Length: 0".toList) ++
  send_line ("Content-Type text/html".toList) ++
  send_line []

/-- `send400` from webServer.cpp, as the exact bytes written to the socket.
As in `send404`, the third line of the source is `"Content-Type text/html"`
without a colon. -/
def send400 : List Char :=
  send_line ("HTTP/1.0 400 Bad Request".toList) ++
  send_line ("Content-Length: 0".toList) ++
  send_line ("Content-Type text/html".toList) ++
  send_line []

/-- `parsed_fname`: strip one leading '/' from the request path
(`starts_with('/')` then `substr(1)`). -/
def stripLeadingSlash : List Char → List Char
  | '/' :: rest => rest
  | l => l

/-- `send_file` from webServer.cpp.  Returns the bytes written to the socket
together with the list of filesystem paths accessed.  The file path is
`std::filesystem::path{"data"} / parsed_fname`. -/
def send_file (fs : Fs) (filename : List Char) (include_body : Bool) :
    List Char × List (List Char) :=
  let parsed_fname := stripLeadingSlash filename
  let fp := "data/".toList ++ parsed_fname
  match read_file fs fp with
  | none => (send404, [fp])
  | some fcontent =>
    (send_line ("HTTP/1.0 200 OK".toList) ++
     send_line ("Content-Length: ".toList ++ (Nat.repr fcontent.length).toList) ++
     send_line ("Content-Type: ".toList ++ get_content_type filename) ++
     send_line [] ++
     (if include_body && !fcontent.isEmpty then fcontent else []),
     [fp])

/-- `process_connection` from webServer.cpp, applied to the header block the
socket delivered (`none` when `read_header`'s receive failed).  Returns the
bytes written to the socket and the filesystem paths accessed. -/
def process_connection (fs : Fs) (request_data : Option (List Char)) :
    List Char × List (List Char) :=
  match read_header request_data with
  | none => (send400, [])
  | some request =>
    if !is_valid_filename request.path then (send404, [])
    else
      match request.method with
      | HttpRequestType.GET => send_file fs request.path true
      | HttpRequestType.HEAD => send_file fs request.path false
      | HttpRequestType.POST => (send400, [])
      | HttpRequestType.INVALID => (send400, [])

/-- `startsWith pat l` holds when `pat` is an initial segment of `l`. -/
def startsWith : List Char → List Char → Bool
  | [], _ => true
  | _ :: _, [] => false
  | p :: ps, c :: cs => p == c && startsWith ps cs

/-- `hasSubstr pat l` holds when `pat` occurs contiguously inside `l`. -/
def hasSubstr (pat : List Char) : List Char → Bool
  | [] => startsWith pat []
  | c :: cs => startsWith pat (c :: cs) || hasSubstr pat cs

/-- Claim C1 evidence: the 404 and 400 responses are four CRLF-terminated
lines, but their third line is the literal `Content-Type text/html` of the
source, so no `Content-Type: <mime>` line (with the colon) occurs anywhere
in them; a `GET /nope.html` request observably receives those exact 404
bytes.  This contradicts the claimed response shape for the 400/404
outcomes. -/
theorem response_content_type_line_missing_colon :
    send404 = "HTTP/1.0 404 Not Found\r\nContent-Length: 0\r\nContent-Type text/html\r\n\r\n".toList ∧
    send400 = "HTTP/1.0 400 Bad Request\r\nContent-Length: 0\r\nContent-Type text/html\r\n\r\n".toList ∧
    hasSubstr ("Content-Type: ".toList) send404 = false ∧
    hasSubstr ("Content-Type: ".toList) send400 = false := by
  refine ⟨by decide, by decide, by decide, by decide⟩

/-! ## Embedding of `Socket::recv_until` (src/socket.cpp) and the end-to-end
composition used by `read_header`.

A connection's incoming byte stream is a `List (Option Char)`: `some c` is a
byte delivered by a successful one-byte `::recv`, `none` is a `::recv` call
failing with a negative result, and the end of the list is EOF (a zero
return).  Bytes not consumed remain in the returned stream. -/

/-- The loop body of `Socket::recv_until`: up to `fuel` one-byte receives,
accumulating into `acc`, stopping early when the accumulated bytes end with
`d` (the source condition `result.size() >= delim.size() &&
result.substr(result.size() - delim.size()) == delim`), at EOF, or on a
receive error (which makes the whole call return `std::nullopt`).  Returns
the call's result together with the unread remainder of the stream. -/
def recv_until_go (d : List Char) (fuel : Nat) (stream : List (Option Char))
    (acc : List Char) : Option (List Char) × List (Option Char) :=
  match fuel, stream with
  | 0, s => (some acc, s)
  | _ + 1, [] => (some acc, [])
  | _ + 1, none :: rest => (none, rest)
  | f + 1, some c :: rest =>
    let acc2 := acc ++ [c]
    if List.isSuffixOf d acc2 then (some acc2, rest)
    else recv_until_go d f rest acc2

/-- `Socket::recv_until(delim, max_length)` from src/socket.cpp. -/
def recv_until (d : List Char) (max_length : Nat) (stream : List (Option Char)) :
    Option (List Char) × List (Option Char) :=
  recv_until_go d max_length stream []

/-- One full `process_connection` exchange as driven by `main`: the header
block is read from the raw byte stream with
`recv_until("\r\n\r\n")` (default `max_length = 4096`), and the parsed
request is dispatched.  `bytes` is the error-free byte sequence the peer
sends. -/
def serve (fs : Fs) (bytes : List Char) : List Char × List (List Char) :=
  process_connection fs (recv_until crlfcrlf 4096 (bytes.map some)).1

/-- Claim C3: a successfully parsed request whose path fails the grammar is
answered with the exact 404 bytes (whose second line is
`Content-Length: 0`), with an empty filesystem-access trace, for every
filesystem. -/
theorem invalid_path_404_no_fs_access (fs : Fs) (data : List Char)
    (req : HttpRequest)
    (hreq : read_header (some data) = some req)
    (hpath : is_valid_filename req.path = false) :
    process_connection fs (some data) = (send404, []) ∧
    send404 = "HTTP/1.0 404 Not Found\r\nContent-Length: 0\r\nContent-Type text/html\r\n\r\n".toList := by
  refine ⟨?_, by decide⟩
  simp [process_connection, hreq, hpath]

/-- Witness for C3: a filesystem on which every path (including
"data/nope.html") is a readable file, yet `GET /nope.html` receives the 404
response without any filesystem access. -/
theorem invalid_path_404_no_fs_access_witness :
    process_connection (fun _ => some ['x'])
      (some ("GET /nope.html HTTP/1.0\r\n\r\n".toList)) = (send404, []) := by
  exact (invalid_path_404_no_fs_access (fun _ => some ['x'])
    ("GET /nope.html HTTP/1.0\r\n\r\n".toList)
    ⟨HttpRequestType.GET, "/nope.html".toList, "HTTP/1.0".toList⟩
    (by decide) (by decide)).1

/-- Claim C10: the path-grammar check runs before the method dispatch, so a
parsed request with a POST or unrecognized method and a non-matching path is
answered 404 (and the 404 bytes differ from the 400 bytes). -/
theorem path_check_precedes_method_dispatch (fs : Fs) (data : List Char)
    (req : HttpRequest)
    (hreq : read_header (some data) = some req)
    (hpath : is_valid_filename req.path = false)
    (hm : req.method = HttpRequestType.POST ∨ req.method = HttpRequestType.INVALID) :
    process_connection fs (some data) = (send404, []) ∧ send404 ≠ send400 := by
  refine ⟨?_, by decide⟩
  simp [process_connection, hreq, hpath]

/-- Witness for C10: `POST /nope.html` is answered 404, not 400. -/
theorem path_check_precedes_method_dispatch_witness :
    process_connection (fun _ => some ['x'])
      (some ("POST /nope.html HTTP/1.0\r\n\r\n".toList)) = (send404, []) := by
  exact (path_check_precedes_method_dispatch (fun _ => some ['x'])
    ("POST /nope.html HTTP/1.0\r\n\r\n".toList)
    ⟨HttpRequestType.POST, "/nope.html".toList, "HTTP/1.0".toList⟩
    (by decide) (by decide) (Or.inl rfl)).1

/-- Counterexample to claim C6: the request line
`GET /file1.html HTTP/1.0 extra` tokenizes into four tokens, not exactly
three, yet `istringstream` extraction succeeds on the first three, the
request parses, and the response is the 200 file response, not 400. -/
theorem four_token_request_line_not_400 :
    (tokenize ("GET /file1.html HTTP/1.0 extra".toList)).length = 4 ∧
    read_header (some ("GET /file1.html HTTP/1.0 extra\r\n\r\n".toList)) =
      some ⟨HttpRequestType.GET, "/file1.html".toList, "HTTP/1.0".toList⟩ ∧
    (process_connection
        (fun p => if p = "data/file1.html".toList then some ['x'] else none)
        (some ("GET /file1.html HTTP/1.0 extra\r\n\r\n".toList))).1 ≠ send400 := by
  refine ⟨by decide, by decide, by decide⟩

/-- Claim C6 as amended: the connection handler answers 400 when the first
line of the header block yields fewer than three whitespace tokens; when it
yields three or more, the first three are taken as method, path and version
and any extra tokens are ignored. -/
theorem request_line_token_count_dispatch (fs : Fs) (data line : List Char)
    (hline : splitFirstCRLF data = some line) :
    ((tokenize line).length < 3 →
      process_connection fs (some data) = (send400, [])) ∧
    (∀ m p v rest, tokenize line = m :: p :: v :: rest →
      read_header (some data) = some ⟨parse_method m, p, v⟩) := by
  constructor
  · intro hlen
    have hhdr : read_header (some data) = none := by
      simp only [read_header, hline]
      rcases htoks : tokenize line with _ | ⟨m, _ | ⟨p, _ | ⟨v, rest⟩⟩⟩ <;>
        simp_all <;> omega
    simp [process_connection, hhdr]
  · intro m p v rest htoks
    simp only [read_header, hline, htoks]

/-- Witness for the amended C6: the one-token request line `GET` is
answered 400. -/
theorem request_line_token_count_dispatch_witness :
    process_connection (fun _ => some ['x']) (some ("GET\r\n\r\n".toList)) =
      (send400, []) := by
  exact (request_line_token_count_dispatch (fun _ => some ['x'])
    ("GET\r\n\r\n".toList) ("GET".toList) (by decide)).1 (by decide)

/-- Helper for C7: when the pending bytes start with a block `p` whose
trailing bytes first equal the delimiter exactly at the end of `p`, the
receive loop consumes exactly `p` and stops, leaving the rest unread. -/
theorem recv_until_go_finds (d : List Char) :
    ∀ (p acc : List Char) (rest : List (Option Char)) (fuel : Nat),
      p ≠ [] → p.length ≤ fuel →
      List.isSuffixOf d (acc ++ p) = true →
      (∀ k, k < p.length → List.isSuffixOf d (acc ++ p.take k) = false) →
      recv_until_go d fuel (p.map some ++ rest) acc = (some (acc ++ p), rest) := by
  intro p
  induction p with
  | nil => intro acc rest fuel h; exact absurd rfl h
  | cons a p2 ih =>
    intro acc rest fuel _ hlen hsfx hmin
    obtain ⟨f, rfl⟩ : ∃ f, fuel = f + 1 := ⟨fuel - 1, by simp at hlen; omega⟩
    cases p2 with
    | nil =>
      have hs : List.isSuffixOf d (acc ++ [a]) = true := hsfx
      simp [recv_until_go, hs]
    | cons b p3 =>
      have hfail : List.isSuffixOf d (acc ++ [a]) = false := by
        have h1 := hmin 1 (by simp)
        simpa using h1
      have hstep : recv_until_go d (f + 1)
          ((a :: b :: p3).map some ++ rest) acc =
          recv_until_go d f ((b :: p3).map some ++ rest) (acc ++ [a]) := by
        simp [recv_until_go, hfail]
      rw [hstep]
      have hres := ih (acc ++ [a]) rest f (by simp)
        (by simp at hlen ⊢; omega)
        (by simpa [List.append_assoc] using hsfx)
        (by
          intro k hk
          have h2 := hmin (k + 1) (by simp at hk ⊢; omega)
          simpa [List.append_assoc] using h2)
      rw [hres]
      simp [List.append_assoc]

/-- Helper for C7: when the delimiter never matches within `fuel` bytes and
at least `fuel` bytes are pending, the loop consumes exactly `fuel` bytes
and returns them as a success. -/
theorem recv_until_go_exhausts (d : List Char) :
    ∀ (fuel : Nat) (s acc : List Char) (rest : List (Option Char)),
      fuel ≤ s.length →
      (∀ k, k ≤ fuel → List.isSuffixOf d (acc ++ s.take k) = false) →
      recv_until_go d fuel (s.map some ++ rest) acc =
        (some (acc ++ s.take fuel), (s.drop fuel).map some ++ rest) := by
  intro fuel
  induction fuel with
  | zero => intro s acc rest _ _; simp [recv_until_go]
  | succ f ih =>
    intro s acc rest hlen hmin
    cases s with
    | nil => simp at hlen
    | cons c s2 =>
      have hfail : List.isSuffixOf d (acc ++ [c]) = false := by
        have h1 := hmin 1 (by omega)
        simpa using h1
      have hstep : recv_until_go d (f + 1)
          ((c :: s2).map some ++ rest) acc =
          recv_until_go d f (s2.map some ++ rest) (acc ++ [c]) := by
        simp [recv_until_go, hfail]
      rw [hstep]
      have hres := ih s2 (acc ++ [c]) rest (by simp at hlen ⊢; omega)
        (by
          intro k hk
          have h2 := hmin (k + 1) (by omega)
          simpa [List.append_assoc] using h2)
      rw [hres]
      simp [List.append_assoc]

/-- Claim C7: `recv_until(d, maxLen)`.  First part: when the stream starts
with a block `p` whose trailing bytes first equal the (nonempty) delimiter
at the end of `p`, and `p` fits in `maxLen`, the call returns exactly `p`
(delimiter included) and leaves every later byte unread.  Second part: when
the delimiter never matches within `maxLen` bytes and at least `maxLen`
bytes are available, it returns the first `maxLen` bytes as a success
(`some`), not an error. -/
theorem recv_until_first_match_or_truncates (d p s : List Char)
    (rest : List (Option Char)) (maxLen : Nat) :
    (d ≠ [] → List.isSuffixOf d p = true →
      (∀ k, k < p.length → List.isSuffixOf d (p.take k) = false) →
      p.length ≤ maxLen →
      recv_until d maxLen (p.map some ++ rest) = (some p, rest)) ∧
    (maxLen ≤ s.length →
      (∀ k, k ≤ maxLen → List.isSuffixOf d (s.take k) = false) →
      recv_until d maxLen (s.map some) = (some (s.take maxLen), (s.drop maxLen).map some)) := by
  constructor
  · intro hd hsfx hmin hlen
    have hp : p ≠ [] := by
      intro hnil
      rw [hnil] at hsfx
      rw [List.isSuffixOf_iff_suffix, List.suffix_nil] at hsfx
      exact hd hsfx
    have h := recv_until_go_finds d p [] rest maxLen hp hlen
      (by simpa using hsfx) (by simpa using hmin)
    simpa [recv_until] using h
  · intro hlen hmin
    have h := recv_until_go_exhausts d maxLen s [] [] hlen
      (by simpa using hmin)
    simpa [recv_until] using h

/-- Witness for C7, using the spec's own example: the delimiter CRLFCRLF
first matches at the end of `GET / HTTP/1.0\r\n\r\n`, so exactly that block
is returned and `GARBAGE` stays unread; and with `maxLen = 4` and no match,
the first 4 bytes of `ABCDEFG` come back as a success. -/
theorem recv_until_first_match_or_truncates_witness :
    recv_until crlfcrlf 4096
        (("GET / HTTP/1.0\r\n\r\n".toList).map some ++ ("GARBAGE".toList).map some) =
      (some ("GET / HTTP/1.0\r\n\r\n".toList), ("GARBAGE".toList).map some) ∧
    recv_until crlfcrlf 4 (("ABCDEFG".toList).map some) =
      (some (("ABCDEFG".toList).take 4), (("ABCDEFG".toList).drop 4).map some) := by
  constructor
  · exact (recv_until_first_match_or_truncates crlfcrlf ("GET / HTTP/1.0\r\n\r\n".toList)
      [] (("GARBAGE".toList).map some) 4096).1 (by decide) (by decide) (by decide) (by decide)
  · exact (recv_until_first_match_or_truncates crlfcrlf [] ("ABCDEFG".toList)
      [] 4).2 (by decide) (by decide)

/-- Helper for C2: a full exchange in which the whole incoming stream is the
header block, the request line parses as a GET, the path passes the grammar,
and the file is readable, produces the 200 response with the file's length,
its MIME type, and its bytes as the body. -/
theorem serve_200_engine (fs : Fs) (content : List Char)
    (s path v : List Char)
    (hrecv : recv_until crlfcrlf 4096 (s.map some) = (some s, []))
    (hhdr : read_header (some s) = some ⟨HttpRequestType.GET, path, v⟩)
    (hvalid : is_valid_filename path = true)
    (hfs : fs ("data/".toList ++ stripLeadingSlash path) = some content) :
    serve fs s =
      (send_line ("HTTP/1.0 200 OK".toList) ++
       send_line ("Content-Length: ".toList ++ (Nat.repr content.length).toList) ++
       send_line ("Content-Type: ".toList ++ get_content_type path) ++
       send_line [] ++ content,
       ["data/".toList ++ stripLeadingSlash path]) := by
  rw [serve, hrecv]
  simp only [process_connection, hhdr, hvalid, Bool.not_true, Bool.false_eq_true,
    if_false, send_file, read_file, hfs]
  cases content with
  | nil => simp
  | cons c cs => simp

/-- Claim C2: for every digit N, a `GET /fileN.html HTTP/1.0` exchange
against a filesystem in which `data/fileN.html` is readable with content
`content` produces status 200, `Content-Length: <content.length>`,
`Content-Type: text/html`, and exactly the file's bytes as the body. -/
theorem get_existing_file_200 (fs : Fs) (N : Char) (content : List Char)
    (hN : N ∈ ['0', '1', '2', '3', '4', '5', '6', '7', '8', '9'])
    (hfs : fs ("data/file".toList ++ [N] ++ ".html".toList) = some content) :
    serve fs ("GET /file".toList ++ [N] ++ ".html HTTP/1.0\r\n\r\n".toList) =
      (send_line ("HTTP/1.0 200 OK".toList) ++
       send_line ("Content-Length: ".toList ++ (Nat.repr content.length).toList) ++
       send_line ("Content-Type: ".toList ++ "text/html".toList) ++
       send_line [] ++ content,
       ["data/file".toList ++ [N] ++ ".html".toList]) := by
  fin_cases hN
  · exact serve_200_engine fs content _ ("/file0.html".toList) ("HTTP/1.0".toList)
      (by decide) (by decide) (by decide) hfs
  · exact serve_200_engine fs content _ ("/file1.html".toList) ("HTTP/1.0".toList)
      (by decide) (by decide) (by decide) hfs
  · exact serve_200_engine fs content _ ("/file2.html".toList) ("HTTP/1.0".toList)
      (by decide) (by decide) (by decide) hfs
  · exact serve_200_engine fs content _ ("/file3.html".toList) ("HTTP/1.0".toList)
      (by decide) (by decide) (by decide) hfs
  · exact serve_200_engine fs content _ ("/file4.html".toList) ("HTTP/1.0".toList)
      (by decide) (by decide) (by decide) hfs
  · exact serve_200_engine fs content _ ("/file5.html".toList) ("HTTP/1.0".toList)
      (by decide) (by decide) (by decide) hfs
  · exact serve_200_engine fs content _ ("/file6.html".toList) ("HTTP/1.0".toList)
      (by decide) (by decide) (by decide) hfs
  · exact serve_200_engine fs content _ ("/file7.html".toList) ("HTTP/1.0".toList)
      (by decide) (by decide) (by decide) hfs
  · exact serve_200_engine fs content _ ("/file8.html".toList) ("HTTP/1.0".toList)
      (by decide) (by decide) (by decide) hfs
  · exact serve_200_engine fs content _ ("/file9.html".toList) ("HTTP/1.0".toList)
      (by decide) (by decide) (by decide) hfs

/-- Witness for C2: `data/file1.html` holding the two bytes `hi` is served
with status 200, `Content-Length: 2`, `Content-Type: text/html`, and body
`hi`. -/
theorem get_existing_file_200_witness :
    serve (fun p => if p = "data/file1.html".toList then some ('h' :: 'i' :: []) else none)
        ("GET /file".toList ++ ['1'] ++ ".html HTTP/1.0\r\n\r\n".toList) =
      (send_line ("HTTP/1.0 200 OK".toList) ++
       send_line ("Content-Length: ".toList ++ (Nat.repr ('h' :: 'i' :: []).length).toList) ++
       send_line ("Content-Type: ".toList ++ "text/html".toList) ++
       send_line [] ++ ('h' :: 'i' :: []),
       ["data/file".toList ++ ['1'] ++ ".html".toList]) := by
  exact get_existing_file_200 _ '1' ('h' :: 'i' :: []) (by decide) (by decide)

/-! ## Embedding of `SocketAddr` (src/socket.cpp)

`sockaddr_in` is embedded field by field: `sin_family` as a numeric family
tag, `sin_port` as the 16-bit value stored in network byte order (i.e. the
result of `htons`), and `sin_addr.s_addr` as its four bytes in memory
order. -/

/-- `AF_INET`. -/
def AF_INET : Nat := 2

/-- `htons`: byte-swap of a 16-bit value (host order is little-endian on
the target platforms). -/
def htons (p : Nat) : Nat := p % 256 * 256 + p / 256 % 256

/-- `ntohs`: the inverse byte swap (same computation). -/
def ntohs (p : Nat) : Nat := p % 256 * 256 + p / 256 % 256

/-- The `struct sockaddr_in` contents of `SocketAddr::Impl`. -/
structure CSockAddrIn where
  sin_family : Nat
  sin_port : Nat
  sin_addr : List Nat
deriving DecidableEq

/-- One dotted-decimal octet as accepted by `inet_pton(AF_INET, ...)`:
one to three decimal digits with value at most 255. -/
def parseOctet (s : List Char) : Option Nat :=
  if s ≠ [] && s.length ≤ 3 && s.all isAsciiDigit then
    let v := s.foldl (fun a c => a * 10 + (c.toNat - 48)) 0
    if v ≤ 255 then some v else none
  else none

/-- `inet_pton(AF_INET, ip, ...)`: exactly four dot-separated octets; the
resulting `s_addr` bytes in memory (network) order. -/
def inet_pton (s : List Char) : Option (List Nat) :=
  match (s.splitOn '.').mapM parseOctet with
  | some [a, b, c, d] => some [a, b, c, d]
  | _ => none

/-- `SocketAddr::SocketAddr(std::string_view ip, uint16_t port)`:
`sin_port = htons(port)`; `inet_pton` fills `sin_addr`, and a parse failure
throws `std::invalid_argument` (modelled as `none`); `sin_family = AF_INET`
from `Impl`'s constructor. -/
def mkSocketAddr (ip : List Char) (port : Nat) : Option CSockAddrIn :=
  match inet_pton ip with
  | none => none
  | some addr => some ⟨AF_INET, htons port, addr⟩

/-- `SocketAddr::port()`: `ntohs(_impl->addr.sin_port)`. -/
def CSockAddrIn.portAcc (a : CSockAddrIn) : Nat := ntohs a.sin_port

/-- `inet_ntop(AF_INET, ...)`: the dotted-decimal rendering (the characters
the C call writes before its NUL terminator). -/
def inet_ntop (addr : List Nat) : List Char :=
  match addr with
  | [a, b, c, d] =>
    (Nat.repr a).toList ++ ['.'] ++ (Nat.repr b).toList ++ ['.'] ++
    (Nat.repr c).toList ++ ['.'] ++ (Nat.repr d).toList
  | _ => []

/-- `INET_ADDRSTRLEN`. -/
def INET_ADDRSTRLEN : Nat := 16

/-- `SocketAddr::ip()`: `inet_ntop` writes the dotted form plus a NUL
terminator into a 16-byte stack buffer whose remaining bytes stay
uninitialized (`junk` models those indeterminate bytes), and the method
returns `std::string(buf.data(), buf.size())` — all 16 buffer bytes, not
just the characters before the NUL. -/
def CSockAddrIn.ipString (a : CSockAddrIn) (junk : List Char) : List Char :=
  let written := inet_ntop a.sin_addr ++ [Char.ofNat 0]
  written ++ junk.take (INET_ADDRSTRLEN - written.length)

/-- `SocketAddr::operator==` exactly as written in src/socket.cpp: family
against the other's family, `sin_port` against the *same* object's
`sin_port`, and `s_addr` against the other's `s_addr`. -/
def sockaddrEq (x y : CSockAddrIn) : Bool :=
  x.sin_family == y.sin_family && x.sin_port == x.sin_port &&
    x.sin_addr == y.sin_addr

/-- Counterexample evidence for claim C4: two addresses with equal family
and numeric address but distinct ports (127.0.0.1:80 vs 127.0.0.1:81)
compare equal, because `operator==` compares the port field with itself;
in general the port fields never influence the comparison. -/
theorem sockaddr_eq_ignores_port :
    sockaddrEq ⟨AF_INET, htons 80, [127, 0, 0, 1]⟩ ⟨AF_INET, htons 81, [127, 0, 0, 1]⟩ = true ∧
    htons 80 ≠ htons 81 ∧
    (∀ x y : CSockAddrIn,
      sockaddrEq x y = (x.sin_family == y.sin_family && x.sin_addr == y.sin_addr)) := by
  refine ⟨by decide, by decide, ?_⟩
  intro x y
  simp [sockaddrEq]

/-- Claim C5 evidence: constructing the address from ("127.0.0.1", 8080)
round-trips the port (8080 comes back), but the address accessor returns
the full 16-byte buffer — "127.0.0.1", then a NUL, then 6 indeterminate
bytes — so it is never exactly the 9-character string "127.0.0.1",
whatever the indeterminate bytes are. -/
theorem ip_accessor_returns_whole_buffer (a : CSockAddrIn) (junk : List Char)
    (hmk : mkSocketAddr ("127.0.0.1".toList) 8080 = some a)
    (hj : junk.length = 6) :
    a.portAcc = 8080 ∧
    (a.ipString junk).length = INET_ADDRSTRLEN ∧
    (a.ipString junk).take 9 = "127.0.0.1".toList ∧
    a.ipString junk ≠ "127.0.0.1".toList := by
  have hval : mkSocketAddr ("127.0.0.1".toList) 8080 =
      some ⟨AF_INET, htons 8080, [127, 0, 0, 1]⟩ := by decide
  rw [hval] at hmk
  obtain rfl : (⟨AF_INET, htons 8080, [127, 0, 0, 1]⟩ : CSockAddrIn) = a :=
    Option.some.inj hmk
  have hjt : junk.take 6 = junk := List.take_of_length_le (le_of_eq hj)
  have hip : CSockAddrIn.ipString ⟨AF_INET, htons 8080, [127, 0, 0, 1]⟩ junk =
      "127.0.0.1".toList ++ (Char.ofNat 0 :: junk.take 6) := rfl
  have h9 : ("127.0.0.1".toList).length = 9 := by decide
  refine ⟨by decide, ?_, ?_, ?_⟩
  · rw [hip, hjt]
    simp [List.length_append, h9, hj, INET_ADDRSTRLEN]
  · rw [hip]
    exact List.take_left' h9
  · intro heq
    rw [hip, hjt] at heq
    have hlen := congrArg List.length heq
    simp [List.length_append, h9, hj] at hlen

/-- Witness for C5's evidence theorem, with the six indeterminate buffer
bytes instantiated to 'A'. -/
theorem ip_accessor_returns_whole_buffer_witness :
    CSockAddrIn.portAcc ⟨AF_INET, htons 8080, [127, 0, 0, 1]⟩ = 8080 ∧
    (CSockAddrIn.ipString ⟨AF_INET, htons 8080, [127, 0, 0, 1]⟩
        (List.replicate 6 'A')).length = INET_ADDRSTRLEN ∧
    (CSockAddrIn.ipString ⟨AF_INET, htons 8080, [127, 0, 0, 1]⟩
        (List.replicate 6 'A')).take 9 = "127.0.0.1".toList ∧
    CSockAddrIn.ipString ⟨AF_INET, htons 8080, [127, 0, 0, 1]⟩
        (List.replicate 6 'A') ≠ "127.0.0.1".toList := by
  exact ip_accessor_returns_whole_buffer ⟨AF_INET, htons 8080, [127, 0, 0, 1]⟩
    (List.replicate 6 'A') (by decide) (by decide)

/-! ## Embedding of `Socket` (src/socket.cpp, src/socket.h)

The OS is an oracle (`OsBehavior`) giving the outcome of each `::bind`,
`::listen`, `::accept`, `::connect`, `::send`, `::recv` call as a function
of the file descriptor passed; every Socket operation returns its C++
result, the updated socket (state and sticky `last_error` slot), and the
trace of OS calls it performed. -/

/-- `Socket::Type`. -/
inductive SockType
  | TCP
  | UDP
deriving DecidableEq

/-- `Socket::State`. -/
inductive SockState
  | Create
  | Listen
  | Bind
  | Recv
  | Accept
  | Connect
  | Close
deriving DecidableEq

/-- `EINVAL`, the code `Socket::accept` stores for the invalid-state
failure (the spec's `InvalidState`). -/
def EINVAL : Nat := 22

/-- `EBADF`, the OS failure for a call on an invalid descriptor (one of the
spec's `OperationFailed` codes). -/
def EBADF : Nat := 9

/-- `EOPNOTSUPP`, stored by `Socket::listen` for non-TCP sockets (the
spec's `UnsupportedOperation`). -/
def EOPNOTSUPP : Nat := 95

/-- The observable state of a `Socket`: descriptor (−1 when invalid),
transport type, lifecycle state, sticky error slot (the errno last
stored). -/
structure Sock where
  fd : Int
  type : SockType
  state : SockState
  last_error : Option Nat
deriving DecidableEq

/-- Which OS socket call a Socket operation performed. -/
inductive OsCall
  | callBind
  | callListen
  | callAccept
  | callConnect
  | callSend
  | callRecv
deriving DecidableEq

/-- The OS oracle: for each socket call, its outcome as a function of the
descriptor it is given (`Except e v` is a failure with errno `e` or a
success). -/
structure OsBehavior where
  osBind : Int → Except Nat Unit
  osListen : Int → Except Nat Unit
  osAccept : Int → Except Nat (Int × CSockAddrIn)
  osConnect : Int → Except Nat Unit
  osSend : Int → Except Nat Nat
  osRecv : Int → Except Nat Nat

/-- `Socket::bind`: performs `::bind` on the stored descriptor; on failure
stores errno and returns false, on success transitions to `Bind`. -/
def Sock.bind (os : OsBehavior) (s : Sock) : Bool × Sock × List OsCall :=
  match os.osBind s.fd with
  | Except.error e => (false, ⟨s.fd, s.type, s.state, some e⟩, [OsCall.callBind])
  | Except.ok _ => (true, ⟨s.fd, s.type, SockState.Bind, s.last_error⟩, [OsCall.callBind])

/-- `Socket::listen`: rejects non-TCP sockets with `EOPNOTSUPP` before any
OS call; otherwise performs `::listen`, storing errno on failure or
transitioning to `Listen` on success. -/
def Sock.listen (os : OsBehavior) (s : Sock) : Bool × Sock × List OsCall :=
  if s.type ≠ SockType.TCP then
    (false, ⟨s.fd, s.type, s.state, some EOPNOTSUPP⟩, [])
  else
    match os.osListen s.fd with
    | Except.error e => (false, ⟨s.fd, s.type, s.state, some e⟩, [OsCall.callListen])
    | Except.ok _ => (true, ⟨s.fd, s.type, SockState.Listen, s.last_error⟩, [OsCall.callListen])

/-- `Socket::accept`: when the state is not `Listen`, stores `EINVAL` and
returns `std::nullopt` before any OS call; otherwise performs `::accept`,
returning a fresh `Connect`-state socket and the peer address on success. -/
def Sock.accept (os : OsBehavior) (s : Sock) :
    Option (Sock × CSockAddrIn) × Sock × List OsCall :=
  if s.state ≠ SockState.Listen then
    (none, ⟨s.fd, s.type, s.state, some EINVAL⟩, [])
  else
    match os.osAccept s.fd with
    | Except.error e => (none, ⟨s.fd, s.type, s.state, some e⟩, [OsCall.callAccept])
    | Except.ok (cfd, caddr) =>
      (some (⟨cfd, s.type, SockState.Connect, none⟩, caddr), s, [OsCall.callAccept])

/-- `Socket::connect`: performs `::connect`; stores errno on failure,
transitions to `Connect` on success. -/
def Sock.connect (os : OsBehavior) (s : Sock) : Bool × Sock × List OsCall :=
  match os.osConnect s.fd with
  | Except.error e => (false, ⟨s.fd, s.type, s.state, some e⟩, [OsCall.callConnect])
  | Except.ok _ => (true, ⟨s.fd, s.type, SockState.Connect, s.last_error⟩, [OsCall.callConnect])

/-- `Socket::send`: performs `::send` on the stored descriptor with no
state check; stores errno and returns `std::nullopt` on failure, the byte
count on success. -/
def Sock.send (os : OsBehavior) (s : Sock) : Option Nat × Sock × List OsCall :=
  match os.osSend s.fd with
  | Except.error e => (none, ⟨s.fd, s.type, s.state, some e⟩, [OsCall.callSend])
  | Except.ok n => (some n, s, [OsCall.callSend])

/-- `Socket::recv`: performs `::recv` with no state check; stores errno and
returns `std::nullopt` on failure, the byte count (0 at EOF) on success. -/
def Sock.recv (os : OsBehavior) (s : Sock) : Option Nat × Sock × List OsCall :=
  match os.osRecv s.fd with
  | Except.error e => (none, ⟨s.fd, s.type, s.state, some e⟩, [OsCall.callRecv])
  | Except.ok n => (some n, s, [OsCall.callRecv])

/-- `Socket::close`: when the descriptor is valid, closes it, resets the
descriptor to −1 and transitions to `Close`; otherwise does nothing. -/
def Sock.close (s : Sock) : Sock :=
  if 0 ≤ s.fd then ⟨-1, s.type, SockState.Close, s.last_error⟩ else s

/-- The POSIX contract the OS oracle satisfies for invalid descriptors:
every socket call on a negative descriptor fails with `EBADF`. -/
def posixBadFd (os : OsBehavior) : Prop :=
  ∀ fd : Int, fd < 0 →
    os.osBind fd = Except.error EBADF ∧
    os.osListen fd = Except.error EBADF ∧
    os.osConnect fd = Except.error EBADF ∧
    os.osSend fd = Except.error EBADF ∧
    os.osRecv fd = Except.error EBADF

/-- A concrete OS oracle satisfying `posixBadFd`: calls on valid
descriptors succeed, calls on invalid ones fail with `EBADF`. -/
def osStub : OsBehavior :=
  ⟨fun fd => if fd < 0 then Except.error EBADF else Except.ok (),
   fun fd => if fd < 0 then Except.error EBADF else Except.ok (),
   fun fd => if fd < 0 then Except.error EBADF
             else Except.ok (7, ⟨AF_INET, htons 5555, [127, 0, 0, 1]⟩),
   fun fd => if fd < 0 then Except.error EBADF else Except.ok (),
   fun fd => if fd < 0 then Except.error EBADF else Except.ok 1,
   fun fd => if fd < 0 then Except.error EBADF else Except.ok 0⟩

/-- Claim C8: `accept()` on a socket whose state is not `Listen` returns no
value, records `EINVAL` (the `InvalidState` error) in the sticky error
slot, leaves descriptor, type and state unchanged, and performs no OS call
at all — the result is the same for every OS behaviour. -/
theorem accept_without_listen_invalid_state (os : OsBehavior) (s : Sock)
    (h : s.state ≠ SockState.Listen) :
    Sock.accept os s = (none, ⟨s.fd, s.type, s.state, some EINVAL⟩, []) := by
  simp [Sock.accept, h]

/-- Witness for C8: a freshly created TCP socket (state `Create`, never
listened) is refused. -/
theorem accept_without_listen_invalid_state_witness :
    Sock.accept osStub ⟨5, SockType.TCP, SockState.Create, none⟩ =
      (none, ⟨5, SockType.TCP, SockState.Create, some EINVAL⟩, []) := by
  exact accept_without_listen_invalid_state osStub
    ⟨5, SockType.TCP, SockState.Create, none⟩ (by decide)

/-- Counterexample to claim C9: on a closed socket (descriptor −1),
`send` does fail, but it passes the dead descriptor to the OS and records
`EBADF` — the `OperationFailed` taxonomy class — not `EINVAL`
(`InvalidState`) as the claim requires. -/
theorem send_after_close_records_ebadf :
    (Sock.send osStub (Sock.close ⟨5, SockType.TCP, SockState.Connect, none⟩)).1 = none ∧
    (Sock.send osStub (Sock.close ⟨5, SockType.TCP, SockState.Connect, none⟩)).2.1.last_error
      = some EBADF ∧
    some EBADF ≠ some EINVAL ∧
    (Sock.send osStub (Sock.close ⟨5, SockType.TCP, SockState.Connect, none⟩)).2.2
      = [OsCall.callSend] := by
  refine ⟨by decide, by decide, by decide, by decide⟩

/-- Claim C9 as amended: after `close()`, every operation still fails and
the socket stays closed, but only `accept` fails with `InvalidState`
(`EINVAL`, without touching the OS); `bind`, `listen`, `connect`, `send`
and `recv` all pass the invalid descriptor to the OS and record the OS
error `EBADF` (`OperationFailed`).  A second `close` is a no-op. -/
theorem operations_after_close (os : OsBehavior) (s : Sock)
    (hos : posixBadFd os) (hfd : 0 ≤ s.fd) (htcp : s.type = SockType.TCP) :
    Sock.bind os (Sock.close s) =
      (false, ⟨-1, s.type, SockState.Close, some EBADF⟩, [OsCall.callBind]) ∧
    Sock.listen os (Sock.close s) =
      (false, ⟨-1, s.type, SockState.Close, some EBADF⟩, [OsCall.callListen]) ∧
    Sock.accept os (Sock.close s) =
      (none, ⟨-1, s.type, SockState.Close, some EINVAL⟩, []) ∧
    Sock.connect os (Sock.close s) =
      (false, ⟨-1, s.type, SockState.Close, some EBADF⟩, [OsCall.callConnect]) ∧
    Sock.send os (Sock.close s) =
      (none, ⟨-1, s.type, SockState.Close, some EBADF⟩, [OsCall.callSend]) ∧
    Sock.recv os (Sock.close s) =
      (none, ⟨-1, s.type, SockState.Close, some EBADF⟩, [OsCall.callRecv]) ∧
    Sock.close (Sock.close s) = Sock.close s := by
  have hclose : Sock.close s = ⟨-1, s.type, SockState.Close, s.last_error⟩ := by
    simp [Sock.close, hfd]
  have hbad := hos (-1) (by norm_num)
  refine ⟨?_, ?_, ?_, ?_, ?_, ?_, ?_⟩
  · rw [hclose]; simp [Sock.bind, hbad.1]
  · rw [hclose]; simp [Sock.listen, htcp, hbad.2.1]
  · rw [hclose]; simp [Sock.accept]
  · rw [hclose]; simp [Sock.connect, hbad.2.2.1]
  · rw [hclose]; simp [Sock.send, hbad.2.2.2.1]
  · rw [hclose]; simp [Sock.recv, hbad.2.2.2.2]
  · rw [hclose]; simp [Sock.close]

/-- Witness for the amended C9, on a concrete connected TCP socket and the
concrete POSIX oracle. -/
theorem operations_after_close_witness :
    Sock.send osStub (Sock.close ⟨6, SockType.TCP, SockState.Connect, none⟩) =
      (none, ⟨-1, SockType.TCP, SockState.Close, some EBADF⟩, [OsCall.callSend]) ∧
    Sock.accept osStub (Sock.close ⟨6, SockType.TCP, SockState.Connect, none⟩) =
      (none, ⟨-1, SockType.TCP, SockState.Close, some EINVAL⟩, []) := by
  have h := operations_after_close osStub ⟨6, SockType.TCP, SockState.Connect, none⟩
    (by intro fd hfd; refine ⟨?_, ?_, ?_, ?_, ?_⟩ <;> simp [osStub, hfd])
    (by norm_num) rfl
  exact ⟨h.2.2.2.2.1, h.2.2.1⟩
